import Mathlib

set_option autoImplicit false

/-!
Shallow embedding of the controller in `ykman-gui/py/yubikey.py`
(yubikey-manager-qt): the result-dictionary helpers and the boundary
error handler, hex/modhex decoding, the PIV authorization helpers
(`_piv_verify_pin`, `_piv_ensure_authenticated`, `piv_change_pin`),
device configuration writing (`write_config`), the device identity
cache (`refresh`), OTP slot programming (`program_otp`), and the
touch-prompt timer scope (`PromptTimeout`).

Device-side behaviour (the `yubikit` sessions the controller drives)
is modelled by explicit device-state records; Python exceptions are
modelled with `Except` and an exception type that records the class
hierarchy facts the handler relies on (`binascii.Error` is a subclass
of `ValueError`; `ApduError` and `InvalidPinError` are `CommandError`s).
-/

namespace Ykman

/-- JSON-like values stored in the flat result dictionaries returned by the
controller (`None`, booleans, integers, strings, lists of strings). -/
inductive JVal where
  | null
  | bool (b : Bool)
  | nat (n : Nat)
  | str (s : String)
  | strs (l : List String)
  deriving DecidableEq, Repr

/-- A Python dict with string keys, as an insertion-ordered association list
with unique keys maintained by `dinsert`. -/
abbrev Dict := List (String × JVal)

/-- Python dict item assignment `d[k] = v`: updates the value in place when the
key is present (keeping its position), otherwise appends the new pair. -/
def dinsert (d : Dict) (k : String) (v : JVal) : Dict :=
  if (d.lookup k).isSome then d.map (fun p => if p.1 = k then (k, v) else p)
  else d ++ [(k, v)]

/-- `success(result={})` (yubikey.py lines 79-81): sets `result['success'] = True`
and returns the same dict. The Python default argument is a single shared dict;
the sharing is modelled separately by `stepCall` below. -/
def success (result : Dict) : Dict := dinsert result "success" (.bool true)

/-- `failure(err_id, result={})` (lines 84-87): sets `result['success'] = False`
and `result['error_id'] = err_id` and returns the same dict. -/
def failure (err_id : JVal) (result : Dict) : Dict :=
  dinsert (dinsert result "success" (.bool false)) "error_id" err_id

/-- `failure` applied to a string error id and a fresh empty dict, the
most common call shape in the source. -/
def failureE (err_id : String) : Dict := failure (.str err_id) []

/-- `unknown_failure(exception)` (lines 90-91): `failure(None, {'error_message': str(e)})`. -/
def unknown_failure (msg : String) : Dict :=
  failure .null [("error_message", .str msg)]

/-- Python exceptions raised by the code under test. Constructors record the
exception classes the boundary handler distinguishes. `binascii.Error` (raised
by `a2b_hex`/`b32decode`) is a subclass of `ValueError`; `ApduError` and
`InvalidPinError` are subclasses of `CommandError`. -/
inductive Exc where
  | establishContext
  | binascii (msg : String)
  | valueErr (msg : String)
  | apdu (sw : Nat)
  | invalidPin (attemptsRemaining : Nat)
  | cmdErr (msg : String)
  | generic (msg : String)
  deriving DecidableEq, Repr

/-- `isinstance(e, ValueError)`: true for `ValueError` itself and its subclass
`binascii.Error`. -/
def isValueError : Exc → Bool
  | .binascii _ => true
  | .valueErr _ => true
  | _ => false

/-- `isinstance(e, CommandError)`: true for `CommandError` and its subclasses
`ApduError` and `InvalidPinError`. -/
def isCommandError : Exc → Bool
  | .apdu _ => true
  | .invalidPin _ => true
  | .cmdErr _ => true
  | _ => false

/-- `str(e)` for the modelled exceptions. -/
def excMsg : Exc → String
  | .establishContext => "EstablishContextException"
  | .binascii m => m
  | .valueErr m => m
  | .apdu sw => "APDU error: SW=" ++ toString sw
  | .invalidPin n => "Invalid PIN, " ++ toString n ++ " tries remaining."
  | .cmdErr m => m
  | .generic m => m

/-- The `catch_error` decorator (lines 58-76): returns the wrapped result;
`EstablishContextException` maps to `pcsc_establish_context_failed`; any
`ValueError` (including `binascii.Error`) maps to `open_device_failed`; any
other exception whose message is `'Incorrect padding'` maps to
`incorrect_padding`; everything else becomes `unknown_failure`. -/
def catch_error (r : Except Exc Dict) : Dict :=
  match r with
  | .ok d => d
  | .error .establishContext => failureE "pcsc_establish_context_failed"
  | .error e =>
    if isValueError e then failureE "open_device_failed"
    else if excMsg e = "Incorrect padding" then failureE "incorrect_padding"
    else unknown_failure (excMsg e)

/-- Value of one hexadecimal digit, as accepted by `binascii.a2b_hex`. -/
def hexVal (c : Char) : Option Nat :=
  if '0' ≤ c ∧ c ≤ '9' then some (c.toNat - '0'.toNat)
  else if 'a' ≤ c ∧ c ≤ 'f' then some (c.toNat - 'a'.toNat + 10)
  else if 'A' ≤ c ∧ c ≤ 'F' then some (c.toNat - 'A'.toNat + 10)
  else none

/-- Decode a character list two digits at a time into bytes, failing on an odd
number of characters or a character outside the digit alphabet `f`. -/
def pairBytes (f : Char → Option Nat) : List Char → Option (List Nat)
  | [] => some []
  | [_] => none
  | c1 :: c2 :: rest =>
    match f c1, f c2, pairBytes f rest with
    | some h, some l, some t => some ((16 * h + l) :: t)
    | _, _, _ => none

/-- `binascii.a2b_hex`: hex-decode a string to bytes; `none` models the
`binascii.Error` (a `ValueError` subclass) raised on odd length or a
non-hexadecimal digit. -/
def a2b_hex (s : String) : Option (List Nat) := pairBytes hexVal s.toList

/-- Value of one modhex digit (alphabet `cbdefghijklnrtuv`), as used by
`yubikit.core.otp.modhex_decode`. -/
def modhexVal (c : Char) : Option Nat :=
  match c with
  | 'c' => some 0
  | 'b' => some 1
  | 'd' => some 2
  | 'e' => some 3
  | 'f' => some 4
  | 'g' => some 5
  | 'h' => some 6
  | 'i' => some 7
  | 'j' => some 8
  | 'k' => some 9
  | 'l' => some 10
  | 'n' => some 11
  | 'r' => some 12
  | 't' => some 13
  | 'u' => some 14
  | 'v' => some 15
  | _ => none

/-- `yubikit.core.otp.modhex_decode`: decode a modhex string to bytes; `none`
models the `ValueError` raised on a character outside the modhex alphabet or an
odd length. -/
def modhex_decode (s : String) : Option (List Nat) := pairBytes modhexVal s.toList

/-- Python truthiness of an optional string argument: `None` and `''` are
falsy, every other string is truthy. -/
def truthyStr : Option String → Bool
  | none => false
  | some s => !(s == "")

/-- `yubikit.core.smartcard.SW.VERIFY_FAIL_NO_RETRY`. -/
def SW_VERIFY_FAIL_NO_RETRY : Nat := 0x63c0

/-- `yubikit.core.smartcard.SW.INCORRECT_PARAMETERS`. -/
def SW_INCORRECT_PARAMETERS : Nat := 0x6a80

/-- `yubikit.core.smartcard.SW.SECURITY_CONDITION_NOT_SATISFIED`. -/
def SW_SECURITY_CONDITION_NOT_SATISFIED : Nat := 0x6982

/-- State of the PIV application on the device, as seen through a `PivSession`
plus `get_pivman_data`: the correct PIN, the PIN retry counter and its reset
value, whether the management key is PIN-protected, and the correct management
key; `verifyFailures` and `authAttempts`/`authFailures` count device-side
verification rejections and `authenticate` calls for the theorems. -/
structure PivDev where
  correctPin : String
  pinAttempts : Nat
  maxPinAttempts : Nat
  hasProtectedKey : Bool
  correctMgmKey : List Nat
  verifyFailures : Nat
  authAttempts : Nat
  authFailures : Nat
  deriving DecidableEq, Repr

/-- Device-side `PivSession.verify_pin`: a correct PIN with tries remaining
succeeds and resets the retry counter; otherwise the device decrements its
counter as a side effect and raises `InvalidPinError` carrying the
post-failure tries remaining. -/
def devVerifyPin (d : PivDev) (pin : String) : Except Exc Unit × PivDev :=
  if pin = d.correctPin ∧ 0 < d.pinAttempts then
    (.ok (), { d with pinAttempts := d.maxPinAttempts })
  else
    (.error (.invalidPin (d.pinAttempts - 1)),
     { d with pinAttempts := d.pinAttempts - 1, verifyFailures := d.verifyFailures + 1 })

/-- Device-side `PivSession.change_pin`: verifies the old PIN like
`verify_pin` and, on success, installs the new PIN. -/
def devChangePin (d : PivDev) (oldPin newPin : String) : Except Exc Unit × PivDev :=
  if oldPin = d.correctPin ∧ 0 < d.pinAttempts then
    (.ok (), { d with correctPin := newPin, pinAttempts := d.maxPinAttempts })
  else
    (.error (.invalidPin (d.pinAttempts - 1)),
     { d with pinAttempts := d.pinAttempts - 1, verifyFailures := d.verifyFailures + 1 })

/-- Device-side `PivSession.get_pin_attempts`: the current retry counter. -/
def devGetPinAttempts (d : PivDev) : Nat := d.pinAttempts

/-- Device-side `PivSession.authenticate`: accepts exactly the device's
management key, raising an `ApduError` otherwise; every call is counted in
`authAttempts`. -/
def devAuthenticate (d : PivDev) (key : List Nat) : Except Exc Unit × PivDev :=
  if key = d.correctMgmKey then
    (.ok (), { d with authAttempts := d.authAttempts + 1 })
  else
    (.error (.apdu SW_SECURITY_CONDITION_NOT_SATISFIED),
     { d with authAttempts := d.authAttempts + 1, authFailures := d.authFailures + 1 })

/-- `Controller._piv_verify_pin` (lines 651-660): with a truthy PIN it calls
`session.verify_pin(pin)` inside `try: ... except: pass`, so any device-side
rejection is discarded and the function falls through returning `None` (here
`none`, which callers treat as success); with no PIN it returns
`failure('pin_required')`. -/
def piv_verify_pin (d : PivDev) (pin : Option String) : Option Dict × PivDev :=
  if truthyStr pin then (none, (devVerifyPin d (pin.getD "")).2)
  else (some (failureE "pin_required"), d)

/-- `Controller._piv_ensure_authenticated` (lines 662-686): in protected-key
mode it defers to `_piv_verify_pin`; otherwise a truthy management key hex
string must have length 48 and hex-decode (else `failure('mgm_key_bad_format')`),
after which `session.authenticate` is called inside `try: ... except: pass`
(rejection discarded); an absent key returns `failure('mgm_key_required')`. -/
def piv_ensure_authenticated (d : PivDev) (pin mgm_key_hex : Option String) :
    Option Dict × PivDev :=
  if d.hasProtectedKey then piv_verify_pin d pin
  else if truthyStr mgm_key_hex then
    if (mgm_key_hex.getD "").length ≠ 48 then (some (failureE "mgm_key_bad_format"), d)
    else
      match a2b_hex (mgm_key_hex.getD "") with
      | none => (some (failureE "mgm_key_bad_format"), d)
      | some mgm_key_bytes => (none, (devAuthenticate d mgm_key_bytes).2)
  else (some (failureE "mgm_key_required"), d)

/-- `Controller.piv_change_pin` (lines 503-523): calls `session.change_pin`;
on `InvalidPinError` it returns `failure('wrong_pin', {'tries_left':
session.get_pin_attempts()})`, querying the counter after the failed attempt;
on `ApduError` with `SW.INCORRECT_PARAMETERS` it returns
`failure('incorrect_parameters')`, on any other `ApduError` a literal
`{'success': False, 'tries_left': ...}` dict; other exceptions propagate. -/
def piv_change_pin (d : PivDev) (old_pin new_pin : String) : Except Exc Dict × PivDev :=
  match devChangePin d old_pin new_pin with
  | (.ok _, d') => (.ok (success []), d')
  | (.error (.invalidPin _), d') =>
    (.ok (failure (.str "wrong_pin") [("tries_left", .nat (devGetPinAttempts d'))]), d')
  | (.error (.apdu sw), d') =>
    if sw = SW_INCORRECT_PARAMETERS then (.ok (failureE "incorrect_parameters"), d')
    else (.ok [("success", .bool false), ("tries_left", .nat (devGetPinAttempts d'))], d')
  | (.error e, d') => (.error e, d')

/-- `yubikit.management.APPLICATION`: the logical applications, in the flag
order the Python `IntFlag` iterates them. -/
inductive APPLICATION where
  | OTP
  | U2F
  | OPENPGP
  | PIV
  | OATH
  | FIDO2
  deriving DecidableEq, Repr

/-- Flag value of an application (`OTP=0x01, U2F=0x02, OPENPGP=0x08,
PIV=0x10, OATH=0x20, FIDO2=0x200`). -/
def APPLICATION.flag : APPLICATION → Nat
  | .OTP => 0x01
  | .U2F => 0x02
  | .OPENPGP => 0x08
  | .PIV => 0x10
  | .OATH => 0x20
  | .FIDO2 => 0x200

/-- `a.name` for an application. -/
def APPLICATION.appName : APPLICATION → String
  | .OTP => "OTP"
  | .U2F => "U2F"
  | .OPENPGP => "OPENPGP"
  | .PIV => "PIV"
  | .OATH => "OATH"
  | .FIDO2 => "FIDO2"

/-- Iteration order of `for a in APPLICATION`. -/
def APPLICATION.all : List APPLICATION :=
  [.OTP, .U2F, .OPENPGP, .PIV, .OATH, .FIDO2]

/-- The `usb_enabled |= APPLICATION[app]` folds at the top of `write_config`. -/
def appFlagOr (apps : List APPLICATION) : Nat :=
  apps.foldl (fun acc a => acc ||| a.flag) 0

/-- `yubikit.management.USB_INTERFACE` (`OTP=1, FIDO=2, CCID=4`). -/
inductive USB_INTERFACE where
  | OTP
  | FIDO
  | CCID
  deriving DecidableEq, Repr

/-- Flag value of a USB interface. -/
def USB_INTERFACE.flag : USB_INTERFACE → Nat
  | .OTP => 1
  | .FIDO => 2
  | .CCID => 4

/-- `t.name` for a USB interface. -/
def USB_INTERFACE.intfName : USB_INTERFACE → String
  | .OTP => "OTP"
  | .FIDO => "FIDO"
  | .CCID => "CCID"

/-- Iteration order of `for t in USB_INTERFACE`. -/
def USB_INTERFACE.all : List USB_INTERFACE := [.OTP, .FIDO, .CCID]

/-- The controller's cross-call state: `self._state` (the last scan
fingerprint) and `self._dev_info` (the cached DeviceInfo dict),
both initially `None` (lines 94-95). -/
structure Ctrl where
  stateFp : Option Nat
  devInfo : Option Dict
  deriving DecidableEq, Repr

/-- State of the management application on the device: the lock code set on
the device (if any), a count of accepted configuration writes, and the applied
USB/NFC application masks. -/
structure MgmtDev where
  lockCode : Option (List Nat)
  writes : Nat
  usbConfig : Nat
  nfcConfig : Nat
  deriving DecidableEq, Repr

/-- Device-side `ManagementSession.write_device_config`: with no lock code set
on the device the write is applied; with a lock code set, a missing code
raises `ValueError('Configuration locked!')` and a wrong code raises
`ApduError` with `SW.VERIFY_FAIL_NO_RETRY`. -/
def devWriteConfig (d : MgmtDev) (usb nfc : Nat) (lock : Option (List Nat)) :
    Except Exc Unit × MgmtDev :=
  match d.lockCode with
  | none => (.ok (), { d with writes := d.writes + 1, usbConfig := usb, nfcConfig := nfc })
  | some lc =>
    match lock with
    | none => (.error (.valueErr "Configuration locked!"), d)
    | some supplied =>
      if supplied = lc then
        (.ok (), { d with writes := d.writes + 1, usbConfig := usb, nfcConfig := nfc })
      else (.error (.apdu SW_VERIFY_FAIL_NO_RETRY), d)

/-- The `try`-block tail of `Controller.write_config` (lines 170-193): issue
the write; on success set `self._state = None` (invalidating the identity
cache) and return `success()`; translate `ApduError(VERIFY_FAIL_NO_RETRY)` to
`wrong_lock_code` and `ValueError('Configuration locked!')` to
`interface_config_locked`; re-raise anything else. -/
def writeConfigStep (c : Ctrl) (d : MgmtDev) (usb nfc : Nat) (lock : Option (List Nat)) :
    Except Exc Dict × (Ctrl × MgmtDev) :=
  match devWriteConfig d usb nfc lock with
  | (.ok _, d') => (.ok (success []), ({ c with stateFp := none }, d'))
  | (.error (.apdu sw), d') =>
    if sw = SW_VERIFY_FAIL_NO_RETRY then (.ok (failureE "wrong_lock_code"), (c, d'))
    else (.error (.apdu sw), (c, d'))
  | (.error (.valueErr m), d') =>
    if m = "Configuration locked!" then (.ok (failureE "interface_config_locked"), (c, d'))
    else (.error (.valueErr m), (c, d'))
  | (.error e, d') => (.error e, (c, d'))

/-- `Controller.write_config` (lines 155-193): builds the USB/NFC application
masks, opens the device, and — only for a truthy lock code — hex-decodes it
(`a2b_hex` raising a `binascii.Error` on malformed hex, modelled by the
`.error` branch) and rejects any decoded length other than 16 bytes with
`failure('lock_code_not_16_bytes')` before issuing the write; a falsy lock
code skips validation entirely. -/
def write_config (c : Ctrl) (d : MgmtDev) (usb_applications nfc_applications : List APPLICATION)
    (lock_code : Option String) : Except Exc Dict × (Ctrl × MgmtDev) :=
  let usb_enabled := appFlagOr usb_applications
  let nfc_enabled := appFlagOr nfc_applications
  if truthyStr lock_code then
    match a2b_hex (lock_code.getD "") with
    | none => (.error (.binascii "Non-hexadecimal digit found"), (c, d))
    | some lc =>
      if lc.length ≠ 16 then (.ok (failureE "lock_code_not_16_bytes"), (c, d))
      else writeConfigStep c d usb_enabled nfc_enabled (some lc)
  else writeConfigStep c d usb_enabled nfc_enabled none

/-- The raw identity data `connect_to_device` reports for the single attached
device: the fields of `info`, `device.pid`, and the mode string that
`refresh` serialises into its DeviceInfo dict (lines 128-151). -/
structure RawInfo where
  devName : String
  version : Option (Nat × Nat × Nat)
  serial : Option Nat
  usbEnabledCaps : Nat
  usbSupportedCaps : Nat
  nfcEnabledCaps : Nat
  nfcSupportedCaps : Nat
  pidInterfaces : Nat
  modeString : String
  isLocked : Bool
  formFactor : Nat
  deriving DecidableEq, Repr

/-- `'.'.join(str(x) for x in info.version) if info.version else ""`. -/
def versionString : Option (Nat × Nat × Nat) → String
  | none => ""
  | some (a, b, c) => toString a ++ "." ++ toString b ++ "." ++ toString c

/-- `info.serial or ''` (a serial of `None` — and Python's falsy `0` — maps to
the empty string). -/
def serialVal : Option Nat → JVal
  | none => .str ""
  | some n => if n = 0 then .str "" else .nat n

/-- Version comparison `v >= (5, 0, 0)` on version triples (lexicographic). -/
def verGe : Nat × Nat × Nat → Nat × Nat × Nat → Bool
  | (a, b, c), (x, y, z) =>
    decide (x < a ∨ (a = x ∧ (y < b ∨ (b = y ∧ z ≤ c))))

/-- `info.version and info.version >= (5,0,0)`: `None` stays `None`. -/
def canWriteConfigVal : Option (Nat × Nat × Nat) → JVal
  | none => JVal.null
  | some v => JVal.bool (verGe v (5, 0, 0))

/-- `[a.name for a in APPLICATION if a in mask]`. -/
def appNames (mask : Nat) : List String :=
  (APPLICATION.all.filter fun a => a.flag &&& mask != 0).map APPLICATION.appName

/-- `[t.name for t in USB_INTERFACE if t in mask]`. -/
def interfaceNames (mask : Nat) : List String :=
  (USB_INTERFACE.all.filter fun t => t.flag &&& mask != 0).map USB_INTERFACE.intfName

/-- The `self._dev_info` dict built by `refresh` (lines 128-151), key by key
in source order. -/
def buildDevInfo (device : RawInfo) : Dict :=
  [ ("name", .str device.devName),
    ("version", .str (versionString device.version)),
    ("serial", serialVal device.serial),
    ("usb_enabled", .strs (appNames device.usbEnabledCaps)),
    ("usb_supported", .strs (appNames device.usbSupportedCaps)),
    ("usb_interfaces_supported", .strs (interfaceNames device.pidInterfaces)),
    ("nfc_enabled", .strs (appNames device.nfcEnabledCaps)),
    ("nfc_supported", .strs (appNames device.nfcSupportedCaps)),
    ("usb_interfaces_enabled", .strs (device.modeString.splitOn "+")),
    ("can_write_config", canWriteConfigVal device.version),
    ("configuration_locked", .bool device.isLocked),
    ("form_factor", .nat device.formFactor) ]

/-- What `scan_devices` / `connect_to_device` would report during one
`refresh` call: the device count, the scan-state fingerprint, whether
`connect_to_device()` succeeds, and the identity data it returns. -/
structure ScanEnv where
  nDevs : Nat
  fingerprint : Nat
  connectOk : Bool
  raw : RawInfo
  deriving DecidableEq, Repr

/-- The result of `refresh`, with the `success`/`error_id` pair of the result
dict flattened into fields because the success payload `{'dev': ...}` holds a
nested dict. -/
structure RefreshOut where
  success : Bool
  error_id : Option String
  dev : Option Dict
  deriving DecidableEq, Repr

/-- `Controller.refresh` (lines 112-153): fail `multiple_devices` whenever the
device count differs from one; on a fingerprint change, connect (the third
component counts `connect_to_device` calls), rebuild and cache the DeviceInfo
dict — resetting both cache fields and failing `no_device` if connecting
throws; otherwise serve `success({'dev': self._dev_info})` from the cache
without connecting. -/
def refresh (env : ScanEnv) (c : Ctrl) : RefreshOut × Ctrl × Nat :=
  if env.nDevs ≠ 1 then (⟨false, some "multiple_devices", none⟩, c, 0)
  else if some env.fingerprint ≠ c.stateFp then
    if env.connectOk then
      (⟨true, none, some (buildDevInfo env.raw)⟩,
       ⟨some env.fingerprint, some (buildDevInfo env.raw)⟩, 1)
    else (⟨false, some "no_device", none⟩, ⟨none, none⟩, 1)
  else (⟨true, none, c.devInfo⟩, c, 0)

/-- State of the OTP application on the device: whether slot writes are
accepted (`put_configuration` raises a `CommandError` otherwise) and the
slots written so far. -/
structure OtpDev where
  writeOk : Bool
  configured : List Nat
  deriving DecidableEq, Repr

/-- Device-side `YubiOtpSession.put_configuration`. -/
def devPutConfiguration (d : OtpDev) (slot : Nat) : Except Exc Unit × OtpDev :=
  if d.writeOk then (.ok (), { d with configured := d.configured ++ [slot] })
  else (.error (.cmdErr "write failed"), d)

/-- `Controller.program_otp` (lines 273-306): hex-decodes `key` and
`private_id` and modhex-decodes `public_id` (each raising a `ValueError`
subclass on malformed input, before the device is opened), optionally uploads
the credential (a `PrepareUploadFailed` maps to `failure('upload_failed',
{'upload_errors': ...})`), then writes the slot, mapping `CommandError` to
`failure('write error')` and otherwise returning
`success({'upload_url': upload_url})`. -/
def program_otp (d : OtpDev) (slot : Nat) (public_id private_id key : String)
    (upload : Bool) (uploadRes : Except (List String) String) :
    Except Exc Dict × OtpDev :=
  match a2b_hex key with
  | none => (.error (.binascii "Non-hexadecimal digit found"), d)
  | some _ =>
  match modhex_decode public_id with
  | none => (.error (.valueErr "invalid modhex string"), d)
  | some _ =>
  match a2b_hex private_id with
  | none => (.error (.binascii "Non-hexadecimal digit found"), d)
  | some _ =>
  match (if upload then Except.map some uploadRes else .ok none) with
  | .error errs => (.ok (failure (.str "upload_failed") [("upload_errors", .strs errs)]), d)
  | .ok upload_url =>
    match devPutConfiguration d slot with
    | (.ok _, d') =>
      (.ok (success [("upload_url", match upload_url with
        | some u => .str u
        | none => .null)]), d')
    | (.error e, d') =>
      if isCommandError e then (.ok (failureE "write error"), d') else (.error e, d')

/-- The two notifications `pyotherside.send` can emit for the touch prompt
(lines 735-740). -/
inductive TouchEvent where
  | touchRequired
  | touchNotRequired
  deriving DecidableEq, BEq, Repr

/-- The single-shot `threading.Timer` armed by `PromptTimeout.__enter__`
(lines 754-763): it emits `touchRequired` at time `timeout` unless cancelled
first; `__exit__` emits the retraction at time `opDur` (when the wrapped
operation finishes) before calling `cancel`, so the timer fires exactly when
`timeout < opDur`. -/
def timerEvents (timeout opDur : ℚ) : List (ℚ × TouchEvent) :=
  if timeout < opDur then [(timeout, .touchRequired)] else []

/-- The timestamped notification trace of one `with PromptTimeout():` scope
around an operation running for `opDur`: the timer's event (if it fires,
at time `timeout < opDur`) followed by the `touchNotRequired` retraction
emitted by `__exit__` at `opDur`. `__exit__(self, typ, value, traceback)`
ignores the exception information, so the trace takes the operation's
outcome `opFails` without inspecting it, and the retraction is emitted
before the scope returns the operation's result. -/
def promptScopeTrace (timeout opDur : ℚ) (opFails : Bool) : List (ℚ × TouchEvent) :=
  let _ := opFails
  timerEvents timeout opDur ++ [(opDur, .touchNotRequired)]

/-- One call shape into `success`/`failure`: with the default (module-shared)
result dict or with an explicit caller-supplied dict. -/
inductive ResultCall where
  | succNoArg
  | failNoArg (err : JVal)
  | succArg (d : Dict)
  | failArg (err : JVal) (d : Dict)
  deriving DecidableEq, Repr

/-- The module-level mutable default dicts of `success(result={})` and
`failure(err_id, result={})`: each function definition owns one shared dict
that every defaulted call mutates and returns. -/
structure FnDefaults where
  successDefault : Dict
  failureDefault : Dict
  deriving DecidableEq, Repr

/-- The defaults as created at module import: two fresh empty dicts. -/
def initDefaults : FnDefaults := ⟨[], []⟩

/-- Execute one `success`/`failure` call against the module state: a
defaulted call mutates and returns the function's shared default dict; a
call with an explicit dict leaves the defaults untouched. -/
def stepCall (st : FnDefaults) : ResultCall → Dict × FnDefaults
  | .succNoArg =>
    let d := success st.successDefault
    (d, { st with successDefault := d })
  | .failNoArg e =>
    let d := failure e st.failureDefault
    (d, { st with failureDefault := d })
  | .succArg d0 => (success d0, st)
  | .failArg e d0 => (failure e d0, st)

/-- Run a sequence of `success`/`failure` calls, returning the final module
state. -/
def runCalls (st : FnDefaults) : List ResultCall → FnDefaults
  | [] => st
  | call :: rest => runCalls (stepCall st call).2 rest

/-- A PIV device in explicit-management-key mode with PIN `123456`, three PIN
tries remaining, and management key `[1, 2, 3]`. -/
def pivDevX : PivDev :=
  { correctPin := "123456", pinAttempts := 3, maxPinAttempts := 3,
    hasProtectedKey := false, correctMgmKey := [1, 2, 3],
    verifyFailures := 0, authAttempts := 0, authFailures := 0 }

/-- A PIV device in protected-key mode with PIN `123456` and three tries. -/
def pivDevP : PivDev :=
  { correctPin := "123456", pinAttempts := 3, maxPinAttempts := 3,
    hasProtectedKey := true, correctMgmKey := [1, 2, 3],
    verifyFailures := 0, authAttempts := 0, authFailures := 0 }

/-- The controller state at startup: no cached fingerprint, no cached info. -/
def ctrl0 : Ctrl := ⟨none, none⟩

/-- A management application with no lock code set and no writes yet. -/
def mgmtDev0 : MgmtDev := ⟨none, 0, 0, 0⟩

/-- An OTP application accepting slot writes, with no slot configured yet. -/
def otpDev0 : OtpDev := ⟨true, []⟩

/-- Concrete identity data for a YubiKey 5 (firmware 5.4.3, serial 123,
OTP+PIV+OATH enabled over USB, all three USB interfaces present). -/
def rawW : RawInfo :=
  { devName := "YubiKey 5", version := some (5, 4, 3), serial := some 123,
    usbEnabledCaps := 0x31, usbSupportedCaps := 0x33,
    nfcEnabledCaps := 0, nfcSupportedCaps := 0,
    pidInterfaces := 7, modeString := "OTP+FIDO+CCID",
    isLocked := false, formFactor := 1 }

/-- A scan observing exactly one device with fingerprint 7 and a working
connection reporting `rawW`. -/
def envW : ScanEnv := ⟨1, 7, true, rawW⟩

/-- A well-formed 48-hex-character management key (24 zero bytes) that is not
`pivDevX`'s key. -/
def mgmHexW : String := "000000000000000000000000000000000000000000000000"

/-- Claim C1, counterexample: calling `_piv_verify_pin` with a wrong PIN on a
device with 3 tries makes the device report the PIN invalid (it records a
rejection and decrements its counter to 2), yet the call returns `None` — no
`wrong_pin`/`tries_left` failure is reported; the failure is suppressed. -/
theorem claim_C1_counterexample :
    (piv_verify_pin pivDevX (some "000000")).1 = none ∧
    (piv_verify_pin pivDevX (some "000000")).2.verifyFailures = pivDevX.verifyFailures + 1 ∧
    (piv_verify_pin pivDevX (some "000000")).2.pinAttempts = 2 :=
  ⟨rfl, rfl, rfl⟩

/-- Claim C1, amended: `_piv_verify_pin` swallows every device-side outcome of
a truthy PIN (it returns no failure, so a device-reported invalid PIN is
suppressed); the `wrong_pin` classification carrying a `tries_left` equal to
the device's freshly queried post-failure counter (hence non-increasing
across consecutive failed attempts) is performed by `piv_change_pin` on
`InvalidPinError`. -/
theorem claim_C1_amended :
    (∀ (d : PivDev) (p : String), p ≠ "" → (piv_verify_pin d (some p)).1 = none) ∧
    (∀ (d : PivDev) (old_pin new_pin : String), old_pin ≠ d.correctPin →
      piv_change_pin d old_pin new_pin =
        (.ok (failure (.str "wrong_pin") [("tries_left", .nat (d.pinAttempts - 1))]),
         { d with pinAttempts := d.pinAttempts - 1, verifyFailures := d.verifyFailures + 1 }) ∧
      d.pinAttempts - 1 ≤ d.pinAttempts) := by
  constructor
  · intro d p hne
    simp [piv_verify_pin, truthyStr, hne]
  · intro d old_pin new_pin hwrong
    refine ⟨?_, Nat.sub_le _ _⟩
    simp [piv_change_pin, devChangePin, hwrong, devGetPinAttempts]

/-- Claim C1, witness for the amended theorem at a concrete wrong-PIN change
attempt (3 tries before, `tries_left` 2 reported). -/
theorem claim_C1_amended_witness :
    (piv_verify_pin pivDevX (some "000000")).1 = none ∧
    piv_change_pin pivDevX "000000" "654321" =
      (.ok (failure (.str "wrong_pin") [("tries_left", .nat 2)]),
       { pivDevX with pinAttempts := 2, verifyFailures := 1 }) :=
  ⟨claim_C1_amended.1 pivDevX "000000" (by decide),
   (claim_C1_amended.2 pivDevX "000000" "654321" (by decide)).1⟩

/-- Claim C2: `_piv_ensure_authenticated` fails with `pin_required` on a
protected-key device when no PIN is supplied, and with `mgm_key_required` on
an explicit-management-key device when no management key is supplied. -/
theorem claim_C2 (d : PivDev) (pin mgm : Option String) :
    (d.hasProtectedKey = true →
      (piv_ensure_authenticated d none mgm).1 = some (failureE "pin_required")) ∧
    (d.hasProtectedKey = false →
      (piv_ensure_authenticated d pin none).1 = some (failureE "mgm_key_required")) := by
  constructor
  · intro h
    simp [piv_ensure_authenticated, piv_verify_pin, truthyStr, h]
  · intro h
    simp [piv_ensure_authenticated, truthyStr, h]

/-- Claim C2, witness: the two failures at concrete devices. -/
theorem claim_C2_witness :
    (piv_ensure_authenticated pivDevP none none).1 = some (failureE "pin_required") ∧
    (piv_ensure_authenticated pivDevX none none).1 = some (failureE "mgm_key_required") :=
  ⟨(claim_C2 pivDevP none none).1 rfl, (claim_C2 pivDevX none none).2 rfl⟩

/-- Claim C3: with a well-formed credential supplied — a non-empty PIN in
protected-key mode, or a 48-hex-character management key in explicit-key
mode — a device-side rejection of the credential is swallowed by
`_piv_ensure_authenticated`: the device records the failed verification or
authentication, yet the call returns `None` (success to its callers). -/
theorem claim_C3 :
    (∀ (d : PivDev) (p : String) (mgm : Option String),
      d.hasProtectedKey = true → p ≠ "" → p ≠ d.correctPin →
        (piv_ensure_authenticated d (some p) mgm).1 = none ∧
        (piv_ensure_authenticated d (some p) mgm).2.verifyFailures = d.verifyFailures + 1) ∧
    (∀ (d : PivDev) (s : String) (key : List Nat) (pin : Option String),
      d.hasProtectedKey = false → s.length = 48 → a2b_hex s = some key →
      key ≠ d.correctMgmKey →
        (piv_ensure_authenticated d pin (some s)).1 = none ∧
        (piv_ensure_authenticated d pin (some s)).2.authFailures = d.authFailures + 1) := by
  constructor
  · intro d p mgm hprot hne hwrong
    simp [piv_ensure_authenticated, hprot, piv_verify_pin, truthyStr, hne, devVerifyPin, hwrong]
  · intro d s key pin hprot hlen hdec hwrong
    have hne : ¬(s = "") := by
      intro h
      rw [h] at hlen
      simp at hlen
    simp [piv_ensure_authenticated, hprot, truthyStr, hne, hlen, hdec, devAuthenticate, hwrong]

/-- Claim C3, witness: a wrong PIN on a protected-key device and a wrong (but
well-formed) 48-hex-character key on an explicit-key device are both
swallowed. -/
theorem claim_C3_witness :
    (piv_ensure_authenticated pivDevP (some "000000") none).1 = none ∧
    (piv_ensure_authenticated pivDevX none (some mgmHexW)).1 = none :=
  ⟨(claim_C3.1 pivDevP "000000" none rfl (by decide) (by decide)).1,
   (claim_C3.2 pivDevX mgmHexW (List.replicate 24 0) none rfl (by decide) (by decide)
      (by decide)).1⟩

/-- Claim C4, counterexample: the empty string is a management-key hex string
that is not 48 hex characters, yet `_piv_ensure_authenticated` in explicit-key
mode fails it with `mgm_key_required` (Python truthiness treats `''` as
absent), not `mgm_key_bad_format`. -/
theorem claim_C4_counterexample :
    (piv_ensure_authenticated pivDevX none (some "")).1 = some (failureE "mgm_key_required") ∧
    failureE "mgm_key_required" ≠ failureE "mgm_key_bad_format" ∧
    ("" : String).length ≠ 48 :=
  ⟨rfl, by decide, by decide⟩

/-- Claim C4, amended: for every non-empty management-key hex string that is
not exactly 48 hex characters — wrong length, or length 48 but not valid
hex — explicit-key-mode `_piv_ensure_authenticated` fails with
`mgm_key_bad_format` and leaves the device untouched (in particular no
`authenticate` call is issued); the empty string is instead treated as an
absent key and fails `mgm_key_required`. -/
theorem claim_C4_amended (d : PivDev) (s : String) (pin : Option String)
    (hmode : d.hasProtectedKey = false) (hne : s ≠ "")
    (hbad : s.length ≠ 48 ∨ a2b_hex s = none) :
    piv_ensure_authenticated d pin (some s) = (some (failureE "mgm_key_bad_format"), d) := by
  rcases hbad with h | h
  · simp [piv_ensure_authenticated, hmode, truthyStr, hne, h]
  · by_cases hl : s.length = 48
    · simp [piv_ensure_authenticated, hmode, truthyStr, hne, hl, h]
    · simp [piv_ensure_authenticated, hmode, truthyStr, hne, hl]

/-- Claim C4, witness for the amended theorem: a 2-character key is rejected
as `mgm_key_bad_format` with the device state unchanged. -/
theorem claim_C4_witness :
    piv_ensure_authenticated pivDevX none (some "00") =
      (some (failureE "mgm_key_bad_format"), pivDevX) :=
  claim_C4_amended pivDevX "00" none rfl (by decide) (Or.inl (by decide))

/-- Claim C5, counterexample: the lock code `"zz"` does not hex-decode to 16
bytes (it does not hex-decode at all), and `write_config` reports it as
`open_device_failed` — the `binascii.Error` from `a2b_hex` escapes to the
`catch_error` boundary as a `ValueError` — not as `lock_code_not_16_bytes`;
no device write is attempted. -/
theorem claim_C5_counterexample :
    catch_error (write_config ctrl0 mgmtDev0 [] [] (some "zz")).1 =
      failureE "open_device_failed" ∧
    (write_config ctrl0 mgmtDev0 [] [] (some "zz")).2.2.writes = 0 ∧
    a2b_hex "zz" = none ∧
    failureE "open_device_failed" ≠ failureE "lock_code_not_16_bytes" :=
  ⟨rfl, rfl, rfl, by decide⟩

/-- Claim C5, amended: every non-empty lock code that hex-decodes to a length
other than 16 bytes makes `write_config` fail with `lock_code_not_16_bytes`,
leaving the controller cache and the device unchanged — so before any device
mutation; a lock code that is not valid hex instead raises out of `a2b_hex`
and is reported as `open_device_failed` by the boundary handler, and an empty
lock code skips validation. -/
theorem claim_C5_amended (c : Ctrl) (d : MgmtDev) (usb nfc : List APPLICATION)
    (s : String) (lc : List Nat) (hne : s ≠ "") (hdec : a2b_hex s = some lc)
    (hlen : lc.length ≠ 16) :
    write_config c d usb nfc (some s) = (.ok (failureE "lock_code_not_16_bytes"), (c, d)) := by
  simp [write_config, truthyStr, hne, hdec, hlen]

/-- Claim C5, witness for the amended theorem: the 1-byte lock code `"00"` is
rejected before any write. -/
theorem claim_C5_witness :
    write_config ctrl0 mgmtDev0 [] [] (some "00") =
      (.ok (failureE "lock_code_not_16_bytes"), (ctrl0, mgmtDev0)) :=
  claim_C5_amended ctrl0 mgmtDev0 [] [] "00" [0] (by decide) (by decide) (by decide)

/-- Claim C6, counterexample: with zero devices detected, `refresh` fails with
`multiple_devices`, not `no_device` as the claim states. -/
theorem claim_C6_counterexample :
    (refresh ⟨0, 5, true, rawW⟩ ctrl0).1 = ⟨false, some "multiple_devices", none⟩ ∧
    (some "multiple_devices" : Option String) ≠ some "no_device" :=
  ⟨rfl, by decide⟩

/-- Claim C6, amended: whenever the detected device count differs from one —
zero as well as more than one — `refresh` fails with `multiple_devices`
before any application-level device call (no connection is attempted) and
without mutating the identity cache; `no_device` is reported only when
opening the connection fails after a fingerprint change. -/
theorem claim_C6_amended (env : ScanEnv) (c : Ctrl) (h : env.nDevs ≠ 1) :
    refresh env c = (⟨false, some "multiple_devices", none⟩, c, 0) := by
  simp [refresh, h]

/-- Claim C6, witness for the amended theorem: two devices detected. -/
theorem claim_C6_witness :
    refresh ⟨2, 5, true, rawW⟩ ctrl0 = (⟨false, some "multiple_devices", none⟩, ctrl0, 0) :=
  claim_C6_amended ⟨2, 5, true, rawW⟩ ctrl0 (by decide)

/-- Claim C7: after a successful `refresh`, a second `refresh` under an
unchanged fingerprint (and still exactly one device) returns the same
DeviceInfo snapshot — the very same result value — leaves the cache as it
was, and opens no new device connection. -/
theorem claim_C7 (env env2 : ScanEnv) (c c1 : Ctrl) (r1 : RefreshOut) (n1 : Nat)
    (h1 : refresh env c = (r1, c1, n1)) (hs : r1.success = true)
    (hn : env2.nDevs = 1) (hf : env2.fingerprint = env.fingerprint) :
    refresh env2 c1 = (r1, c1, 0) := by
  unfold refresh at h1
  by_cases hd : env.nDevs ≠ 1
  · rw [if_pos hd] at h1
    cases h1
    simp at hs
  · rw [if_neg hd] at h1
    by_cases hst : some env.fingerprint ≠ c.stateFp
    · rw [if_pos hst] at h1
      by_cases hco : env.connectOk
      · rw [if_pos hco] at h1
        cases h1
        simp [refresh, hn, hf]
      · rw [if_neg hco] at h1
        cases h1
        simp at hs
    · rw [if_neg hst] at h1
      cases h1
      rw [not_not] at hst
      simp [refresh, hn, hf, ← hst]

/-- Claim C7, witness: a first refresh from the empty cache against `envW`
fills the cache; the second call returns the identical snapshot with zero
connections opened. -/
theorem claim_C7_witness :
    refresh envW ⟨some 7, some (buildDevInfo rawW)⟩ =
      (⟨true, none, some (buildDevInfo rawW)⟩, ⟨some 7, some (buildDevInfo rawW)⟩, 0) :=
  claim_C7 envW envW ctrl0 ⟨some 7, some (buildDevInfo rawW)⟩
    ⟨true, none, some (buildDevInfo rawW)⟩ 1 rfl rfl rfl rfl

/-- Claim C8: in a `PromptTimeout` scope, an operation finishing before the
timeout produces no `touchRequired` notification; one exceeding the timeout
produces exactly one `touchRequired`; in every case exactly one
`touchNotRequired` retraction is emitted, as the last event of the scope
(hence after any `touchRequired` and before the scope's result is returned),
independently of whether the operation fails. -/
theorem claim_C8 (timeout opDur : ℚ) (opFails : Bool) :
    (opDur < timeout →
      (promptScopeTrace timeout opDur opFails).map Prod.snd = [TouchEvent.touchNotRequired]) ∧
    (timeout < opDur →
      (promptScopeTrace timeout opDur opFails).map Prod.snd =
        [TouchEvent.touchRequired, TouchEvent.touchNotRequired]) ∧
    ((promptScopeTrace timeout opDur opFails).map Prod.snd).count
      TouchEvent.touchNotRequired = 1 ∧
    (promptScopeTrace timeout opDur opFails).getLast? =
      some (opDur, TouchEvent.touchNotRequired) ∧
    promptScopeTrace timeout opDur opFails = promptScopeTrace timeout opDur (!opFails) := by
  unfold promptScopeTrace timerEvents
  by_cases h : timeout < opDur
  · refine ⟨fun h2 => absurd h (lt_asymm h2), fun _ => ?_, ?_, ?_, ?_⟩ <;> simp [h] <;> decide
  · refine ⟨fun _ => ?_, fun h2 => absurd h2 h, ?_, ?_, ?_⟩ <;> simp [h] <;> decide

/-- Claim C8, witness: with the default half-second timeout and a one-second
operation, the trace is exactly `touchRequired` then `touchNotRequired`. -/
theorem claim_C8_witness :
    (promptScopeTrace (1/2) 1 false).map Prod.snd =
      [TouchEvent.touchRequired, TouchEvent.touchNotRequired] :=
  (claim_C8 (1/2) 1 false).2.1 (by norm_num)

/-- Across any sequence of `success`/`failure` calls, the shared default dict
of `success` only ever holds the single pair `('success', True)`: the
invariant behind claim C9. -/
theorem successDefault_invariant (calls : List ResultCall) (st : FnDefaults)
    (h : st.successDefault = [] ∨ st.successDefault = [("success", JVal.bool true)]) :
    (runCalls st calls).successDefault = [] ∨
      (runCalls st calls).successDefault = [("success", JVal.bool true)] := by
  induction calls generalizing st with
  | nil => exact h
  | cons call rest ih =>
    show (runCalls (stepCall st call).2 rest).successDefault = _ ∨ _
    apply ih
    cases call with
    | succNoArg =>
      right
      show success st.successDefault = _
      rcases h with h | h <;> rw [h] <;> decide
    | failNoArg e => exact h
    | succArg d0 => exact h
    | failArg e d0 => exact h

/-- Claim C9: every call to `success()` with no explicit result argument
returns exactly `{'success': True}` with no `'error_id'` key, whatever
`success()`/`failure()` calls came before — the mutable shared default dict
is benign here because `success` only ever writes the key `'success'` to it
and `failure`'s default is a distinct dict. -/
theorem claim_C9 (calls : List ResultCall) :
    (stepCall (runCalls initDefaults calls) .succNoArg).1 = [("success", JVal.bool true)] ∧
    ((stepCall (runCalls initDefaults calls) .succNoArg).1).lookup "error_id" = none := by
  have h := successDefault_invariant calls initDefaults (Or.inl rfl)
  constructor
  · show success (runCalls initDefaults calls).successDefault = _
    rcases h with h | h <;> rw [h] <;> decide
  · show (success (runCalls initDefaults calls).successDefault).lookup "error_id" = none
    rcases h with h | h <;> rw [h] <;> decide

/-- Claim C9, witness: after a `failure('open_device_failed')` and a
`success()`, the next defaulted `success()` still returns exactly
`{'success': True}`. -/
theorem claim_C9_witness :
    (stepCall (runCalls initDefaults [.failNoArg (.str "open_device_failed"), .succNoArg])
      .succNoArg).1 = [("success", JVal.bool true)] :=
  (claim_C9 [.failNoArg (.str "open_device_failed"), .succNoArg]).1

/-- Claim C10: every `ValueError` escaping a wrapped operation — including the
`binascii.Error` raised by `program_otp`'s hex decoding of a malformed key —
is reported by `catch_error` as `{'success': False, 'error_id':
'open_device_failed'}`, and the `incorrect_padding` branch is never reached
for such errors since `binascii.Error` is a `ValueError` (even when its
message is literally `'Incorrect padding'`). -/
theorem claim_C10 :
    (∀ e : Exc, isValueError e = true →
      catch_error (Except.error e) = failureE "open_device_failed") ∧
    catch_error (program_otp otpDev0 1 "cccccccccccc" "010203040506" "zz" false
      (Except.ok "")).1 = failureE "open_device_failed" ∧
    catch_error (Except.error (Exc.binascii "Incorrect padding")) =
      failureE "open_device_failed" ∧
    failureE "open_device_failed" ≠ failureE "incorrect_padding" := by
  refine ⟨?_, rfl, rfl, by decide⟩
  intro e he
  cases e with
  | binascii m => rfl
  | valueErr m => rfl
  | establishContext => simp [isValueError] at he
  | apdu sw => simp [isValueError] at he
  | invalidPin n => simp [isValueError] at he
  | cmdErr m => simp [isValueError] at he
  | generic m => simp [isValueError] at he

/-- Claim C10, witness: a plain `ValueError` is reported as
`open_device_failed`. -/
theorem claim_C10_witness :
    catch_error (Except.error (Exc.valueErr "could not open device")) =
      failureE "open_device_failed" :=
  claim_C10.1 (Exc.valueErr "could not open device") rfl

end Ykman
